import Mathlib

/-!
Verification of the wed_BE account-lifecycle and access-control core.

The definitions below are a shallow embedding of the TypeScript source:
the auth controller (register / confirmOTP / login / adminLogin /
updateProfile / getMe / deleteAccount), the admin users controller
(getAllUsers / updateUser / deleteUser), and the auth / admin middleware
(authenticate / requireAdmin).  The MongoDB store is modelled as lists of
records with first-match (`findOne`) semantics; external collaborators
(jsonwebtoken sign / verify, the password hasher and its comparator, the
translation table and the mail dispatcher) are abstracted as function
arguments, since their implementations live outside this repository.
-/

namespace WedBE

/-- Account record, after the `IUser` document shape used by the
controllers (fields referenced in the source: `_id`, `email`, `password`,
`name`, `role`, `isEmailConfirmed`, `isProfileComplete`,
`relationshipType`, `dateOfBirth`, `numberOfChildren`, `createdAt`).
Optional document fields are `Option`s; `password` is `none` exactly when
the hashed secret has been stripped from a response object. -/
structure UserRec where
  id : String
  email : String
  password : Option String
  name : Option String
  role : Option String
  isEmailConfirmed : Bool
  isProfileComplete : Bool
  relationshipType : Option String
  dateOfBirth : Option String
  numberOfChildren : Nat
  createdAt : Nat
deriving Repr, DecidableEq

/-- One-time-code record, after the `IOtp` document shape
(`_id`, `email`, `otp`, `createdAt`). -/
structure OtpRec where
  id : String
  email : String
  otp : String
  createdAt : Nat
deriving Repr, DecidableEq

/-- The credential store: the `users` and `otps` MongoDB collections in
insertion order, plus a counter used to mint fresh document ids. -/
structure Store where
  users : List UserRec
  otps : List OtpRec
  nextId : Nat
deriving Repr, DecidableEq

/-- Embedding of the `AppError` class of `error.middleware.ts`:
message, HTTP status code, status string and optional translation key. -/
structure AppError where
  message : String
  statusCode : Nat
  status : String
  translationKey : Option String
deriving Repr, DecidableEq

/-- Builds the `AppError` thrown as
`new AppError(translateRequest(key, req), code, "error", key)`;
`tr` is the translation function for the current request's language. -/
def appErr (tr : String → String) (key : String) (code : Nat) : AppError :=
  { message := tr key, statusCode := code, status := "error", translationKey := some key }

/-- `user.toObject()` followed by `delete userResponse.password`:
the response copy of an account with the hashed secret removed. -/
def sanitize (u : UserRec) : UserRec := { u with password := none }

/-- Success payload of register / confirmOTP / login:
`{ token, user }` with a sanitized user. -/
structure AuthPayload where
  token : String
  user : UserRec
deriving Repr, DecidableEq

/-- `User.findOne({ email })`: first stored account whose email equals the
query value (exact string match). -/
def findUserByEmail (s : Store) (e : String) : Option UserRec :=
  s.users.find? (fun u => u.email == e)

/-- `User.findById(id)`: first stored account with the given id. -/
def findUserById (s : Store) (i : String) : Option UserRec :=
  s.users.find? (fun u => u.id == i)

/-- `Otp.findOne({ email, otp })`: first OTP record whose (email, otp)
pair equals the query values exactly. -/
def findOtp (s : Store) (e c : String) : Option OtpRec :=
  s.otps.find? (fun r => r.email == e && r.otp == c)

/-- Applies `f` to the first element satisfying `p`, leaving the rest of
the list unchanged (the single-document update of `findOneAndUpdate`,
`findByIdAndUpdate` and `save`). -/
def updateFirst (p : α → Bool) (f : α → α) : List α → List α
  | [] => []
  | x :: xs => if p x then f x :: xs else x :: updateFirst p f xs

/-- `User.findOneAndUpdate({ email }, { isEmailConfirmed: true })`
applied to the users collection. -/
def setEmailConfirmed (e : String) (us : List UserRec) : List UserRec :=
  updateFirst (fun u => u.email == e) (fun u => { u with isEmailConfirmed := true }) us

/-- Store operations a controller performs, recorded so that
"never touches the store" is a statement about the operation log and not
only about the final state. -/
inductive StoreOp where
  | findUser (email : String)
  | createUser (email : String)
  | createOtp (email otp : String)
  | sendEmail (email otp : String)
deriving Repr, DecidableEq

/-- Embedding of `register` (auth controller).  Arguments standing for
external collaborators: `tr` the request translation, `sign` the JWT
signer applied to the new account id, `hashPw` the password hasher run by
the model's pre-save hook (the User model file itself is not part of this
repository snapshot; per the spec the secret is hashed at creation and
the role defaults to `user`), `otpCode` the value produced by
`generateOTP()`, `now` the creation timestamp, `sendOk` whether
`sendOTPEmail` succeeds.  Returns the response, the new store and the log
of store / mail operations performed. -/
def register (tr : String → String) (sign : String → String)
    (hashPw : String → String) (otpCode : String) (now : Nat) (sendOk : Bool)
    (s : Store) (email pw : String) :
    Except AppError AuthPayload × Store × List StoreOp :=
  if email = "" ∨ pw = "" then
    (Except.error (appErr tr "auth.emailRequired" 400), s, [])
  else if pw.length < 8 then
    (Except.error (appErr tr "auth.passwordMinLength" 400), s, [])
  else
    match findUserByEmail s email with
    | some _ =>
        (Except.error (appErr tr "auth.userExists" 409), s, [StoreOp.findUser email])
    | none =>
        let uid := toString s.nextId
        let u : UserRec :=
          { id := uid, email := email, password := some (hashPw pw), name := none,
            role := some "user", isEmailConfirmed := false, isProfileComplete := false, relationshipType := none, dateOfBirth := none, numberOfChildren := 0, createdAt := now }
        let s1 : Store :=
          { users := s.users ++ [u],
            otps := s.otps ++ [{ id := toString (s.nextId + 1), email := email, otp := otpCode, createdAt := now }],
            nextId := s.nextId + 2 }
        let log := [StoreOp.findUser email, StoreOp.createUser email,
                    StoreOp.createOtp email otpCode, StoreOp.sendEmail email otpCode]
        if sendOk then
          (Except.ok { token := sign uid, user := sanitize u }, s1, log)
        else
          (Except.error { message := "Failed to send OTP email", statusCode := 500,
                          status := "error", translationKey := none }, s1, log)

/-- Embedding of `confirmOTP` (auth controller): validate inputs, look up
the OTP record by exact (email, otp), set `isEmailConfirmed` on the first
account with that email via `findOneAndUpdate`, delete the consumed OTP
record by its own id (`deleteOne({ _id })`), and answer with a fresh
token and the sanitized account. -/
def confirmOTP (tr : String → String) (sign : String → String)
    (s : Store) (email code : String) :
    Except AppError AuthPayload × Store :=
  if email = "" ∨ code = "" then
    (Except.error (appErr tr "auth.emailRequired" 400), s)
  else
    match findOtp s email code with
    | none => (Except.error (appErr tr "auth.invalidOTP" 400), s)
    | some r =>
        match findUserByEmail s email with
        | none => (Except.error (appErr tr "auth.userNotFound" 404), s)
        | some u =>
            let u2 : UserRec := { u with isEmailConfirmed := true }
            (Except.ok { token := sign u2.id, user := sanitize u2 },
             { s with users := setEmailConfirmed email s.users,
                      otps := s.otps.eraseP (fun x => x.id == r.id) })

/-- Embedding of `login` (auth controller); `cmp pw u` is the outcome of
`user.comparePassword(password)` (bcrypt comparison defined in the User
model, abstracted here). -/
def login (tr : String → String) (sign : String → String)
    (cmp : String → UserRec → Bool) (s : Store) (email pw : String) :
    Except AppError AuthPayload :=
  if email = "" ∨ pw = "" then
    Except.error (appErr tr "auth.emailRequired" 400)
  else
    match findUserByEmail s email with
    | none => Except.error (appErr tr "auth.invalidCredentials" 401)
    | some u =>
        if cmp pw u then Except.ok { token := sign u.id, user := sanitize u }
        else Except.error (appErr tr "auth.invalidCredentials" 401)

/-- Success payload of `adminLogin`: token plus the reduced admin object
`{ id, email, name, role }`. -/
structure AdminPayload where
  token : String
  id : String
  email : String
  name : Option String
  role : Option String
deriving Repr, DecidableEq

/-- Embedding of `adminLogin` (auth controller): validate, find the
account, reject with 403 unless its role is `admin` or `superAdmin`, and
only then compare the password. -/
def adminLogin (tr : String → String) (sign : String → String)
    (cmp : String → UserRec → Bool) (s : Store) (email pw : String) :
    Except AppError AdminPayload :=
  if email = "" ∨ pw = "" then
    Except.error (appErr tr "auth.emailRequired" 400)
  else
    match findUserByEmail s email with
    | none => Except.error (appErr tr "auth.invalidCredentials" 401)
    | some u =>
        if u.role ≠ some "admin" ∧ u.role ≠ some "superAdmin" then
          Except.error (appErr tr "auth.unauthorized" 403)
        else if cmp pw u then
          Except.ok { token := sign u.id, id := u.id, email := u.email,
                      name := u.name, role := u.role }
        else
          Except.error (appErr tr "auth.invalidCredentials" 401)

/-- Embedding of `updateProfile` (auth controller): `name` and
`dateOfBirth` mandatory, then the authenticated identity must be present,
then `findByIdAndUpdate` sets the profile fields, `numberOfChildren`
defaulting to 0 and `isProfileComplete` set to true unconditionally. -/
def updateProfile (tr : String → String) (s : Store) (reqUser : Option UserRec)
    (name relationshipType dateOfBirth : Option String)
    (numberOfChildren : Option Nat) :
    Except AppError UserRec × Store :=
  if name.getD "" = "" ∨ dateOfBirth.getD "" = "" then
    (Except.error (appErr tr "auth.emailRequired" 400), s)
  else
    match reqUser with
    | none => (Except.error (appErr tr "auth.tokenRequired" 401), s)
    | some ru =>
        match findUserById s ru.id with
        | none => (Except.error (appErr tr "auth.userNotFound" 404), s)
        | some u =>
            let u2 : UserRec :=
              { u with
                name := name,
                relationshipType := relationshipType.orElse (fun _ => u.relationshipType),
                dateOfBirth := dateOfBirth,
                numberOfChildren := numberOfChildren.getD 0,
                isProfileComplete := true }
            (Except.ok (sanitize u2),
             { s with users := updateFirst (fun x => x.id == ru.id) (fun _ => u2) s.users })

/-- Embedding of `getMe` (auth controller): requires the identity set by
`authenticate`, re-reads the account from the store, answers sanitized. -/
def getMe (tr : String → String) (s : Store) (reqUser : Option UserRec) :
    Except AppError UserRec :=
  match reqUser with
  | none => Except.error (appErr tr "auth.tokenRequired" 401)
  | some ru =>
      match findUserById s ru.id with
      | none => Except.error (appErr tr "auth.userNotFound" 404)
      | some u => Except.ok (sanitize u)

/-- Outcome of `jwt.verify`: a decoded `{ id }` payload, a
`JsonWebTokenError` (structural or signature failure) or a
`TokenExpiredError`. -/
inductive JwtOutcome where
  | ok (id : String)
  | invalidToken
  | expiredToken
deriving Repr, DecidableEq

/-- Boolean prefix test on character lists (JS `startsWith`). -/
def listStartsWith : List Char → List Char → Bool
  | _, [] => true
  | [], _ :: _ => false
  | a :: as, b :: bs => a == b && listStartsWith as bs

/-- JS `str.split(" ")` on a character list: the maximal runs between
single-space separators, including empty runs. -/
def splitAtSpaces : List Char → List (List Char)
  | [] => [[]]
  | c :: cs =>
      if c = ' ' then [] :: splitAtSpaces cs
      else
        match splitAtSpaces cs with
        | [] => [[c]]
        | w :: ws => (c :: w) :: ws

/-- Token extraction of `authenticate`: if the authorization header is
present and starts with `Bearer`, take `header.split(" ")[1]`. -/
def extractToken (header : Option String) : Option String :=
  match header with
  | some h =>
      if listStartsWith h.data "Bearer".data then
        ((splitAtSpaces h.data).map fun cs => String.mk cs)[1]?
      else none
  | none => none

/-- Embedding of `authenticate` (auth middleware): missing token means
401 tokenRequired; `jwt.verify` failures map by error name to 401
tokenInvalid / 401 tokenExpired; a decoded id that resolves to no stored
account means 404 userNotFound; otherwise the resolved account is
attached to the request (the `ok` value).  `verify` abstracts
`jwt.verify(token, secret)`. -/
def authenticate (tr : String → String) (verify : String → JwtOutcome)
    (s : Store) (header : Option String) : Except AppError UserRec :=
  match extractToken header with
  | none => Except.error (appErr tr "auth.tokenRequired" 401)
  | some t =>
      if t = "" then Except.error (appErr tr "auth.tokenRequired" 401)
      else
        match verify t with
        | JwtOutcome.invalidToken => Except.error (appErr tr "auth.tokenInvalid" 401)
        | JwtOutcome.expiredToken => Except.error (appErr tr "auth.tokenExpired" 401)
        | JwtOutcome.ok uid =>
            match findUserById s uid with
            | none => Except.error (appErr tr "auth.userNotFound" 404)
            | some u => Except.ok u

/-- `req.user.role || "user"` of the admin middleware: the role string
with missing or empty role defaulting to `user`. -/
def roleOrDefault (u : UserRec) : String :=
  match u.role with
  | some r => if r = "" then "user" else r
  | none => "user"

/-- Embedding of `requireAdmin` (admin middleware): 401 tokenRequired if
no identity was attached, 403 unauthorized unless the role is `admin` or
`superAdmin`, otherwise pass. -/
def requireAdmin (tr : String → String) (reqUser : Option UserRec) :
    Except AppError Unit :=
  match reqUser with
  | none => Except.error (appErr tr "auth.tokenRequired" 401)
  | some u =>
      if roleOrDefault u ≠ "admin" ∧ roleOrDefault u ≠ "superAdmin" then
        Except.error (appErr tr "auth.unauthorized" 403)
      else Except.ok ()

/-- Request body of the admin `updateUser` handler: each field is
updated only when it is present (`!== undefined`). -/
structure AdminUserUpdate where
  name : Option String
  relationshipType : Option String
  dateOfBirth : Option String
  numberOfChildren : Option Nat
  role : Option String
  isEmailConfirmed : Option Bool
  isProfileComplete : Option Bool
deriving Repr, DecidableEq

/-- The field-by-field conditional assignment block of `updateUser`. -/
def applyAdminUpdate (b : AdminUserUpdate) (u : UserRec) : UserRec :=
  { u with
    name := b.name.orElse (fun _ => u.name),
    relationshipType := b.relationshipType.orElse (fun _ => u.relationshipType),
    dateOfBirth := b.dateOfBirth.orElse (fun _ => u.dateOfBirth),
    numberOfChildren := b.numberOfChildren.getD u.numberOfChildren,
    role := b.role.orElse (fun _ => u.role),
    isEmailConfirmed := b.isEmailConfirmed.getD u.isEmailConfirmed,
    isProfileComplete := b.isProfileComplete.getD u.isProfileComplete }

/-- Embedding of the admin `updateUser` handler: find by id, apply the
provided fields, save, answer with the sanitized account. -/
def updateUser (tr : String → String) (s : Store) (id : String)
    (b : AdminUserUpdate) : Except AppError UserRec × Store :=
  match findUserById s id with
  | none => (Except.error (appErr tr "auth.userNotFound" 404), s)
  | some u =>
      let u2 := applyAdminUpdate b u
      (Except.ok (sanitize u2),
       { s with users := updateFirst (fun x => x.id == id) (fun _ => u2) s.users })

/-- Embedding of the admin `deleteUser` handler: the self-delete guard
(`req.user._id.toString() === id`) rejects with 400 cannotDeleteSelf
before any store access; then `findByIdAndDelete`. -/
def deleteUser (tr : String → String) (s : Store) (caller : UserRec)
    (id : String) : Except AppError Unit × Store :=
  if caller.id = id then
    (Except.error (appErr tr "auth.cannotDeleteSelf" 400), s)
  else
    match findUserById s id with
    | none => (Except.error (appErr tr "auth.userNotFound" 404), s)
    | some _ => (Except.ok (), { s with users := s.users.eraseP (fun u => u.id == id) })

/-- Query parameters of the admin `getAllUsers` handler, as parsed from
the request: `page` and `limit` are `parseInt(...) || default` (a `none`
stands for an absent or non-numeric value), the boolean filters arrive as
raw strings compared with `"true"`. -/
structure ListUsersQuery where
  page : Option Nat
  limit : Option Nat
  search : String
  isEmailConfirmed : Option String
  isProfileComplete : Option String
  role : Option String
deriving Repr, DecidableEq

/-- Case-insensitive substring test modelling the Mongo
`$regex ... $options: "i"` filter on a plain search string (regex
metacharacters are out of scope for the properties proved here). -/
def ciContains (hay pat : String) : Bool :=
  decide (1 < (hay.toLower.splitOn pat.toLower).length)

/-- The filter document built by `getAllUsers`, as a predicate on stored
accounts: optional `$or` search over email and name, optional equality
filters on the two boolean flags, and the role constraint that always
excludes `superAdmin` (an explicit `role=superAdmin` request falls back
to the `$ne: "superAdmin"` branch). -/
def matchesQuery (q : ListUsersQuery) (u : UserRec) : Bool :=
  (if q.search = "" then true
   else ciContains u.email q.search || ciContains (u.name.getD "") q.search)
  && (match q.isEmailConfirmed with
      | none => true
      | some v => u.isEmailConfirmed == (v == "true"))
  && (match q.isProfileComplete with
      | none => true
      | some v => u.isProfileComplete == (v == "true"))
  && (match q.role with
      | some r =>
          if r ≠ "" ∧ r ≠ "superAdmin" then u.role == some r
          else !(u.role == some "superAdmin")
      | none => !(u.role == some "superAdmin"))

/-- Response of `getAllUsers`: the page of sanitized accounts plus the
pagination block. -/
structure UsersPage where
  users : List UserRec
  page : Nat
  limit : Nat
  total : Nat
deriving Repr, DecidableEq

/-- Embedding of the admin `getAllUsers` handler: filter, sort by
`createdAt` descending, skip / limit, strip the password
(`select("-password")`), and count the documents matching the same
query for the total. -/
def getAllUsers (s : Store) (q : ListUsersQuery) : UsersPage :=
  let page := match q.page with | some p => if p = 0 then 1 else p | none => 1
  let limit := match q.limit with | some l => if l = 0 then 10 else l | none => 10
  let skip := (page - 1) * limit
  let fl := s.users.filter (matchesQuery q)
  let sorted := fl.mergeSort (fun a b => decide (b.createdAt ≤ a.createdAt))
  { users := ((sorted.drop skip).take limit).map sanitize,
    page := page, limit := limit, total := fl.length }

/-- Identity translation table: every key translates to itself. -/
def trId : String → String := fun k => k

/-- Sample token signer for concrete evaluations. -/
def signDefault : String → String := fun i => String.append "tok:" i

/-- Sample password hasher for concrete evaluations. -/
def hashDefault : String → String := fun p => String.append "h:" p

/-- Sample bcrypt comparison matching `hashDefault`. -/
def cmpDefault : String → UserRec → Bool :=
  fun pw u => u.password == some (String.append "h:" pw)

/-- Sample regular account. -/
def aliceUser : UserRec :=
  ⟨"1", "a@x.com", some "h:password1", some "Alice", some "user", false, false, none, none, 0, 0⟩

/-- Sample admin account. -/
def bobAdmin : UserRec :=
  ⟨"2", "b@x.com", some "h:password2", some "Bob", some "admin", true, false, none, none, 0, 1⟩

/-- Sample superAdmin account. -/
def caraSuper : UserRec :=
  ⟨"3", "c@x.com", some "h:password3", some "Cara", some "superAdmin", true, true, none, none, 0, 2⟩

/-- Sample JWT verifier: `good` decodes to account id 1, `old` is
expired, anything else has a bad signature. -/
def verifySample : String → JwtOutcome :=
  fun t => if t = "good" then JwtOutcome.ok "1"
           else if t = "old" then JwtOutcome.expiredToken
           else JwtOutcome.invalidToken

/-- C2: for every request, authenticate fails tokenRequired (401) when no
Bearer authorization header is present; a token that `jwt.verify` rejects
structurally yields tokenInvalid (401) while an expired one yields the
distinct tokenExpired (401); a decoded account id resolving to no stored
account yields userNotFound (404); otherwise the resolved account is
attached to the request identity. -/
theorem authenticate_cases (tr : String → String) (verify : String → JwtOutcome)
    (s : Store) (header : Option String) :
    (header = none →
      authenticate tr verify s header = Except.error (appErr tr "auth.tokenRequired" 401))
    ∧ (∀ t, extractToken header = some t → t ≠ "" → verify t = JwtOutcome.invalidToken →
      authenticate tr verify s header = Except.error (appErr tr "auth.tokenInvalid" 401))
    ∧ (∀ t, extractToken header = some t → t ≠ "" → verify t = JwtOutcome.expiredToken →
      authenticate tr verify s header = Except.error (appErr tr "auth.tokenExpired" 401))
    ∧ (∀ t uid, extractToken header = some t → t ≠ "" → verify t = JwtOutcome.ok uid →
      findUserById s uid = none →
      authenticate tr verify s header = Except.error (appErr tr "auth.userNotFound" 404))
    ∧ (∀ t uid u, extractToken header = some t → t ≠ "" → verify t = JwtOutcome.ok uid →
      findUserById s uid = some u →
      authenticate tr verify s header = Except.ok u) := by
  refine ⟨?_, ?_, ?_, ?_, ?_⟩
  · intro h; subst h; simp [authenticate, extractToken]
  · intro t h1 h2 h3; simp [authenticate, h1, h2, h3]
  · intro t h1 h2 h3; simp [authenticate, h1, h2, h3]
  · intro t uid h1 h2 h3 h4; simp [authenticate, h1, h2, h3, h4]
  · intro t uid u h1 h2 h3 h4; simp [authenticate, h1, h2, h3, h4]

/-- Witness for C2: on a concrete store and header the resolved account
is attached. -/
theorem authenticate_cases_instance :
    authenticate trId verifySample ⟨[aliceUser], [], 10⟩ (some "Bearer good") =
      Except.ok aliceUser := by
  have h := authenticate_cases trId verifySample ⟨[aliceUser], [], 10⟩ (some "Bearer good")
  exact h.2.2.2.2 "good" "1" aliceUser (by decide) (by decide) (by decide) (by decide)

/-- C3: requireAdmin fails tokenRequired (401) when no identity is
attached, fails unauthorized (403) for role `user`, and passes for
`admin` and `superAdmin` alike. -/
theorem requireAdmin_gate (tr : String → String) (reqUser : Option UserRec) :
    (reqUser = none →
      requireAdmin tr reqUser = Except.error (appErr tr "auth.tokenRequired" 401))
    ∧ (∀ u, reqUser = some u → u.role = some "user" →
      requireAdmin tr reqUser = Except.error (appErr tr "auth.unauthorized" 403))
    ∧ (∀ u, reqUser = some u → (u.role = some "admin" ∨ u.role = some "superAdmin") →
      requireAdmin tr reqUser = Except.ok ()) := by
  refine ⟨?_, ?_, ?_⟩
  · intro h; subst h; simp [requireAdmin]
  · intro u h1 h2; subst h1; simp [requireAdmin, roleOrDefault, h2]
  · intro u h1 h2; subst h1
    rcases h2 with h2 | h2 <;> simp [requireAdmin, roleOrDefault, h2]

/-- Witness for C3: a concrete `user`-role identity is rejected with 403
and a concrete `superAdmin` passes. -/
theorem requireAdmin_gate_instance :
    requireAdmin trId (some aliceUser) = Except.error (appErr trId "auth.unauthorized" 403)
    ∧ requireAdmin trId (some caraSuper) = Except.ok () := by
  constructor
  · exact (requireAdmin_gate trId (some aliceUser)).2.1 aliceUser rfl (by decide)
  · exact (requireAdmin_gate trId (some caraSuper)).2.2 caraSuper rfl (Or.inr (by decide))

/-- C4: with nonempty inputs, login answers the very same error record
(same status code 401, status string and translation key
invalidCredentials) whether no account exists for the email or the
account exists but password verification fails. -/
theorem login_error_indistinguishable (tr sign : String → String)
    (cmp : String → UserRec → Bool) (s1 s2 : Store) (email pw : String) (u : UserRec)
    (he : email ≠ "") (hp : pw ≠ "")
    (h1 : findUserByEmail s1 email = none)
    (h2 : findUserByEmail s2 email = some u) (hc : cmp pw u = false) :
    login tr sign cmp s1 email pw = Except.error (appErr tr "auth.invalidCredentials" 401)
    ∧ login tr sign cmp s2 email pw = Except.error (appErr tr "auth.invalidCredentials" 401) := by
  constructor
  · simp [login, he, hp, h1]
  · simp [login, he, hp, h2, hc]

/-- Witness for C4: unknown email and wrong password at concrete stores
produce the identical error. -/
theorem login_error_indistinguishable_instance :
    login trId signDefault cmpDefault ⟨[], [], 0⟩ "a@x.com" "wrongpass" =
      Except.error (appErr trId "auth.invalidCredentials" 401)
    ∧ login trId signDefault cmpDefault ⟨[aliceUser], [], 0⟩ "a@x.com" "wrongpass" =
      Except.error (appErr trId "auth.invalidCredentials" 401) :=
  login_error_indistinguishable trId signDefault cmpDefault ⟨[], [], 0⟩ ⟨[aliceUser], [], 0⟩
    "a@x.com" "wrongpass" aliceUser (by decide) (by decide) (by decide) (by decide) (by decide)

/-- C5: adminLogin rejects an existing account whose role is neither
`admin` nor `superAdmin` with unauthorized (403), for every password
comparator whatsoever — the role check runs after the lookup and before
password verification. -/
theorem adminLogin_role_gate (tr sign : String → String) (cmp : String → UserRec → Bool)
    (s : Store) (email pw : String) (u : UserRec)
    (he : email ≠ "") (hp : pw ≠ "")
    (hu : findUserByEmail s email = some u)
    (hr1 : u.role ≠ some "admin") (hr2 : u.role ≠ some "superAdmin") :
    adminLogin tr sign cmp s email pw = Except.error (appErr tr "auth.unauthorized" 403) := by
  simp [adminLogin, he, hp, hu, hr1, hr2]

/-- Witness for C5: a concrete `user`-role account is rejected with 403
even under a comparator that accepts every password. -/
theorem adminLogin_role_gate_instance :
    adminLogin trId signDefault (fun _ _ => true) ⟨[aliceUser], [], 0⟩ "a@x.com" "password1" =
      Except.error (appErr trId "auth.unauthorized" 403) :=
  adminLogin_role_gate trId signDefault (fun _ _ => true) ⟨[aliceUser], [], 0⟩
    "a@x.com" "password1" aliceUser (by decide) (by decide) (by decide) (by decide) (by decide)

/-- C9: the admin deleteUser handler with a target id equal to the
caller's own id answers the 400 cannotDeleteSelf error and leaves the
store untouched, so the target account remains resolvable. -/
theorem deleteUser_self_guard (tr : String → String) (s : Store) (caller : UserRec)
    (id : String) (h : caller.id = id) :
    deleteUser tr s caller id = (Except.error (appErr tr "auth.cannotDeleteSelf" 400), s)
    ∧ findUserById (deleteUser tr s caller id).2 id = findUserById s id := by
  constructor <;> simp [deleteUser, h]

/-- Witness for C9: a concrete admin deleting their own id is rejected
and still present afterwards. -/
theorem deleteUser_self_guard_instance :
    deleteUser trId ⟨[bobAdmin], [], 0⟩ bobAdmin "2" =
      (Except.error (appErr trId "auth.cannotDeleteSelf" 400), ⟨[bobAdmin], [], 0⟩)
    ∧ findUserById (deleteUser trId ⟨[bobAdmin], [], 0⟩ bobAdmin "2").2 "2" =
      findUserById ⟨[bobAdmin], [], 0⟩ "2" :=
  deleteUser_self_guard trId ⟨[bobAdmin], [], 0⟩ bobAdmin "2" (by decide)

/-- C6: with a missing email, missing password or a password shorter
than 8, register answers a 400 validation error, returns the store
unchanged and performs no store or mail operation at all (empty
operation log: not even the existence lookup runs). -/
theorem register_invalid_input (tr sign hashPw : String → String) (otpCode : String)
    (now : Nat) (sendOk : Bool) (s : Store) (email pw : String)
    (h : email = "" ∨ pw = "" ∨ pw.length < 8) :
    ∃ e, register tr sign hashPw otpCode now sendOk s email pw = (Except.error e, s, [])
      ∧ e.statusCode = 400 := by
  by_cases h1 : email = "" ∨ pw = ""
  · exact ⟨appErr tr "auth.emailRequired" 400, by simp [register, h1], rfl⟩
  · have he : ¬ email = "" := fun hx => h1 (Or.inl hx)
    have hpw : ¬ pw = "" := fun hx => h1 (Or.inr hx)
    have hl : pw.length < 8 := by
      rcases h with h | h | h
      · exact absurd h he
      · exact absurd h hpw
      · exact h
    exact ⟨appErr tr "auth.passwordMinLength" 400, by simp [register, he, hpw, hl], rfl⟩

/-- Witness for C6: a concrete 5-character password leaves the store and
the operation log empty. -/
theorem register_invalid_input_instance :
    (register trId signDefault hashDefault "1234" 0 true ⟨[], [], 0⟩ "a@x.com" "short").2.1 =
      (⟨[], [], 0⟩ : Store)
    ∧ (register trId signDefault hashDefault "1234" 0 true ⟨[], [], 0⟩ "a@x.com" "short").2.2 =
      [] := by
  obtain ⟨e, h1, _⟩ := register_invalid_input trId signDefault hashDefault "1234" 0 true
    ⟨[], [], 0⟩ "a@x.com" "short" (by decide)
  rw [h1]
  exact ⟨rfl, rfl⟩

/-- C7: with a valid email and a password of length at least 8, register
succeeds when no account with that email exists, creating the account
with both flags false; a second register with the very same email then
answers the 409 userExists conflict; and the new account is keyed by the
exact email string, so lookups for any other string (in particular a
differently-cased variant) are unaffected. -/
theorem register_conflict_once (tr sign hashPw : String → String) (otpCode : String)
    (now : Nat) (s : Store) (email pw : String)
    (he : email ≠ "") (hp : 8 ≤ pw.length)
    (hfree : findUserByEmail s email = none) :
    ((register tr sign hashPw otpCode now true s email pw).1 =
      Except.ok { token := sign (toString s.nextId),
                  user := { id := toString s.nextId, email := email, password := none,
                            name := none, role := some "user", isEmailConfirmed := false,
                            isProfileComplete := false, relationshipType := none,
                            dateOfBirth := none, numberOfChildren := 0, createdAt := now } })
    ∧ (∀ tr2 sign2 hash2 otp2 now2 sendOk2 pw2, pw2 ≠ "" → 8 ≤ pw2.length →
      (register tr2 sign2 hash2 otp2 now2 sendOk2
          (register tr sign hashPw otpCode now true s email pw).2.1 email pw2).1 =
        Except.error (appErr tr2 "auth.userExists" 409))
    ∧ (∀ e2, e2 ≠ email →
      findUserByEmail (register tr sign hashPw otpCode now true s email pw).2.1 e2 =
        findUserByEmail s e2) := by
  have hp' : pw ≠ "" := by
    intro hx; subst hx; exact absurd hp (by decide)
  have hnl : ¬ pw.length < 8 := Nat.not_lt.mpr hp
  have hs1 : (register tr sign hashPw otpCode now true s email pw).2.1 =
      { users := s.users ++
          [{ id := toString s.nextId, email := email, password := some (hashPw pw),
             name := none, role := some "user", isEmailConfirmed := false,
             isProfileComplete := false, relationshipType := none, dateOfBirth := none,
             numberOfChildren := 0, createdAt := now }],
        otps := s.otps ++ [{ id := toString (s.nextId + 1), email := email, otp := otpCode, createdAt := now }],
        nextId := s.nextId + 2 } := by
    simp [register, he, hp', hnl, hfree]
  have hfree' : s.users.find? (fun u => u.email == email) = none := hfree
  refine ⟨?_, ?_, ?_⟩
  · simp [register, he, hp', hnl, hfree, sanitize]
  · intro tr2 sign2 hash2 otp2 now2 sendOk2 pw2 hp2 hl2
    have hnl2 : ¬ pw2.length < 8 := Nat.not_lt.mpr hl2
    rw [hs1]
    have hfind : findUserByEmail
        { users := s.users ++
            [{ id := toString s.nextId, email := email, password := some (hashPw pw),
               name := none, role := some "user", isEmailConfirmed := false,
               isProfileComplete := false, relationshipType := none, dateOfBirth := none,
               numberOfChildren := 0, createdAt := now }],
          otps := s.otps ++ [{ id := toString (s.nextId + 1), email := email, otp := otpCode, createdAt := now }],
          nextId := s.nextId + 2 } email ≠ none := by
      simp [findUserByEmail, List.find?_append, hfree']
    cases hfe : findUserByEmail
        { users := s.users ++
            [{ id := toString s.nextId, email := email, password := some (hashPw pw),
               name := none, role := some "user", isEmailConfirmed := false,
               isProfileComplete := false, relationshipType := none, dateOfBirth := none,
               numberOfChildren := 0, createdAt := now }],
          otps := s.otps ++ [{ id := toString (s.nextId + 1), email := email, otp := otpCode, createdAt := now }],
          nextId := s.nextId + 2 } email with
    | none => exact absurd hfe hfind
    | some w => simp [register, he, hp2, hnl2, hfe]
  · intro e2 hne
    rw [hs1]
    have hne' : (email == e2) = false := by
      simp [beq_iff_eq]; exact Ne.symm hne
    simp [findUserByEmail, List.find?_append, hne']

/-- Witness for C7: registering the same email twice on a concrete empty
store yields the 409 conflict on the second attempt. -/
theorem register_conflict_once_instance :
    (register trId signDefault hashDefault "5678" 1 true
        (register trId signDefault hashDefault "1234" 0 true ⟨[], [], 0⟩ "a@x.com" "password1").2.1
        "a@x.com" "password2").1 =
      Except.error (appErr trId "auth.userExists" 409) := by
  have h := register_conflict_once trId signDefault hashDefault "1234" 0 ⟨[], [], 0⟩
    "a@x.com" "password1" (by decide) (by decide) (by decide)
  exact h.2.1 trId signDefault hashDefault "5678" 1 true "password2" (by decide) (by decide)

/-- C8: every success payload that carries an account — register,
confirmOTP, login, getMe, updateProfile and the admin updateUser — has
the hashed password field removed. -/
theorem responses_sanitized (tr sign hashPw : String → String)
    (cmp : String → UserRec → Bool) (otpCode : String) (now : Nat) (sendOk : Bool)
    (s : Store) (email pw code id : String) (reqUser : Option UserRec)
    (name relationshipType dateOfBirth : Option String) (numberOfChildren : Option Nat)
    (b : AdminUserUpdate) :
    (∀ p, (register tr sign hashPw otpCode now sendOk s email pw).1 = Except.ok p →
      p.user.password = none)
    ∧ (∀ p, (confirmOTP tr sign s email code).1 = Except.ok p → p.user.password = none)
    ∧ (∀ p, login tr sign cmp s email pw = Except.ok p → p.user.password = none)
    ∧ (∀ v, getMe tr s reqUser = Except.ok v → v.password = none)
    ∧ (∀ v, (updateProfile tr s reqUser name relationshipType dateOfBirth numberOfChildren).1 =
        Except.ok v → v.password = none)
    ∧ (∀ v, (updateUser tr s id b).1 = Except.ok v → v.password = none) := by
  refine ⟨?_, ?_, ?_, ?_, ?_, ?_⟩
  · intro p h
    simp only [register] at h
    repeat' split at h
    all_goals simp_all [sanitize]
    all_goals rw [← h]
  · intro p h
    simp only [confirmOTP] at h
    repeat' split at h
    all_goals simp_all [sanitize]
    all_goals rw [← h]
  · intro p h
    simp only [login] at h
    repeat' split at h
    all_goals simp_all [sanitize]
    all_goals rw [← h]
  · intro v h
    simp only [getMe] at h
    repeat' split at h
    all_goals simp_all [sanitize]
    all_goals rw [← h]
  · intro v h
    simp only [updateProfile] at h
    repeat' split at h
    all_goals simp_all [sanitize]
    all_goals rw [← h]
  · intro v h
    simp only [updateUser] at h
    repeat' split at h
    all_goals simp_all [sanitize]
    all_goals rw [← h]

/-- Sample success payload of a concrete login, used by the C8
witness. -/
def samplePayload : AuthPayload :=
  { token := signDefault aliceUser.id, user := sanitize aliceUser }

/-- Witness for C8: the concrete login success payload has no password
field. -/
theorem responses_sanitized_instance : samplePayload.user.password = none := by
  have h := responses_sanitized trId signDefault hashDefault cmpDefault "1234" 0 true
    ⟨[aliceUser], [], 0⟩ "a@x.com" "password1" "1234" "1" none none none none none
    ⟨none, none, none, none, none, none, none⟩
  exact h.2.2.1 samplePayload (by rfl)

/-- A stored account matched by the getAllUsers filter never has role
superAdmin: the role clause of the query excludes it in every case. -/
theorem matchesQuery_role_ne (q : ListUsersQuery) (u : UserRec)
    (h : matchesQuery q u = true) : u.role ≠ some "superAdmin" := by
  unfold matchesQuery at h
  simp only [Bool.and_eq_true] at h
  have h4 := h.2
  split at h4
  · rename_i r heq
    split at h4
    · rename_i hcond
      have hur : u.role = some r := by simpa [beq_iff_eq] using h4
      rw [hur]
      intro hx
      exact hcond.2 (by injection hx)
    · intro hx
      rw [hx] at h4
      simp at h4
  · intro hx
    rw [hx] at h4
    simp at h4

/-- C10: the admin user listing never returns a superAdmin account — not
in the page (for any pagination, search, flag or role parameters,
including an explicit role=superAdmin request) and not in the total
count, which counts exactly the accounts matching the same
superAdmin-excluding query. -/
theorem getAllUsers_excludes_superAdmin (s : Store) (q : ListUsersQuery) :
    (∀ u ∈ (getAllUsers s q).users, u.role ≠ some "superAdmin")
    ∧ (getAllUsers s q).total = (s.users.filter (matchesQuery q)).length
    ∧ (∀ u ∈ s.users, matchesQuery q u = true → u.role ≠ some "superAdmin") := by
  refine ⟨?_, rfl, ?_⟩
  · intro u hu
    simp only [getAllUsers] at hu
    rw [List.mem_map] at hu
    obtain ⟨v, hv, rfl⟩ := hu
    have hv1 := List.mem_of_mem_take hv
    have hv2 := List.mem_of_mem_drop hv1
    rw [List.mem_mergeSort, List.mem_filter] at hv2
    have hrole := matchesQuery_role_ne q v hv2.2
    simpa [sanitize] using hrole
  · intro u _ h
    exact matchesQuery_role_ne q u h

/-- Witness for C10: on a concrete store holding one user and one
superAdmin, the unfiltered listing counts a single account and the
user-role account is not a superAdmin. -/
theorem getAllUsers_excludes_superAdmin_instance :
    aliceUser.role ≠ some "superAdmin"
    ∧ (getAllUsers ⟨[aliceUser, caraSuper], [], 0⟩ ⟨none, none, "", none, none, none⟩).total = 1 := by
  have h := getAllUsers_excludes_superAdmin ⟨[aliceUser, caraSuper], [], 0⟩
    ⟨none, none, "", none, none, none⟩
  constructor
  · exact h.2.2 aliceUser (by decide) (by decide)
  · rw [h.2.1]; decide

/-- Finding the first account with a given email after
`findOneAndUpdate({ email }, { isEmailConfirmed: true })` yields exactly
the previously-first account with the flag set. -/
theorem find_setEmailConfirmed (e : String) (us : List UserRec) :
    (setEmailConfirmed e us).find? (fun v => v.email == e) =
      (us.find? (fun v => v.email == e)).map
        (fun u => { u with isEmailConfirmed := true }) := by
  induction us with
  | nil => rfl
  | cons u rest ih =>
      by_cases hu : (u.email == e) = true
      · simp [setEmailConfirmed, updateFirst, hu, List.find?_cons_of_pos]
      · rw [Bool.not_eq_true] at hu
        simp only [setEmailConfirmed, updateFirst] at ih ⊢
        rw [if_neg (by simp [hu])]
        rw [List.find?_cons_of_neg _ (by simp [hu]), List.find?_cons_of_neg _ (by simp [hu])]
        exact ih

/-- If the (email, code) pair matches exactly one record of a list of
OTP records with pairwise-distinct ids, then after erasing the record
`deleteOne({ _id })` targets, no record matches the pair any more. -/
theorem eraseP_unique_no_match (e c : String) (l : List OtpRec) :
    ∀ r : OtpRec,
      l.Pairwise (fun a b => a.id ≠ b.id) →
      l.find? (fun x => x.email == e && x.otp == c) = some r →
      l.countP (fun x => x.email == e && x.otp == c) = 1 →
      (l.eraseP (fun x => x.id == r.id)).find? (fun x => x.email == e && x.otp == c) =
        none := by
  induction l with
  | nil => intro r _ hf _; simp at hf
  | cons x xs ih =>
      intro r hp hf hcnt
      have hphead := (List.pairwise_cons.mp hp).1
      have hptail := (List.pairwise_cons.mp hp).2
      by_cases hm : (x.email == e && x.otp == c) = true
      · have hrx : r = x := by
          simp only [List.find?, hm] at hf
          exact (Option.some.inj hf).symm
        subst hrx
        have hxs : xs.countP (fun x => x.email == e && x.otp == c) = 0 := by
          rw [List.countP_cons] at hcnt
          simpa [hm] using hcnt
        rw [List.eraseP_cons_of_pos (by simp)]
        rw [List.find?_eq_none]
        intro y hy
        have := List.countP_eq_zero.mp hxs y hy
        simpa using this
      · rw [Bool.not_eq_true] at hm
        have hf' : xs.find? (fun x => x.email == e && x.otp == c) = some r := by
          simp only [List.find?, hm] at hf
          exact hf
        have hrmem : r ∈ xs := List.mem_of_find?_eq_some hf'
        have hxid : ¬ (x.id == r.id) = true := by
          simpa [beq_iff_eq] using hphead r hrmem
        have hcnt' : xs.countP (fun x => x.email == e && x.otp == c) = 1 := by
          rw [List.countP_cons] at hcnt
          simpa [hm] using hcnt
        have hxid2 : (x.id == r.id) = false := by simpa using hxid
        rw [List.eraseP_cons_of_neg (by simp [hxid2])]
        simp only [List.find?, hm]
        exact ih r hptail hf' hcnt'

/-- Counterexample to C1 as stated, at three concrete store states:
(i) an OTP record matching (email, code) exists but no account with that
email does, and confirmOTP fails with 404 userNotFound instead of
succeeding, refuting the left-to-right reading of the claimed iff;
(ii) two stored records both match the same (email, code), and a second
confirmOTP with the same arguments succeeds instead of failing with
invalidOTP, because only the first record was deleted by its id;
(iii) a record with an empty stored code matches the pair, an account
exists, yet the call is rejected by input validation. -/
theorem confirmOTP_claim_cex :
    ((confirmOTP trId signDefault ⟨[], [⟨"o1", "a@x.com", "1234", 0⟩], 5⟩ "a@x.com" "1234").1 =
        Except.error (appErr trId "auth.userNotFound" 404)
      ∧ findOtp ⟨[], [⟨"o1", "a@x.com", "1234", 0⟩], 5⟩ "a@x.com" "1234" =
        some ⟨"o1", "a@x.com", "1234", 0⟩)
    ∧ ((confirmOTP trId signDefault
        (confirmOTP trId signDefault
          ⟨[aliceUser], [⟨"o1", "a@x.com", "1234", 0⟩, ⟨"o2", "a@x.com", "1234", 1⟩], 5⟩
          "a@x.com" "1234").2 "a@x.com" "1234").1.isOk = true)
    ∧ ((confirmOTP trId signDefault ⟨[aliceUser], [⟨"o3", "a@x.com", "", 0⟩], 5⟩ "a@x.com" "").1 =
        Except.error (appErr trId "auth.emailRequired" 400)
      ∧ findOtp ⟨[aliceUser], [⟨"o3", "a@x.com", "", 0⟩], 5⟩ "a@x.com" "" =
        some ⟨"o3", "a@x.com", "", 0⟩) := by
  refine ⟨⟨?_, ?_⟩, ?_, ?_, ?_⟩ <;> rfl

/-- C1 (amended): with nonempty email and code, confirmOTP succeeds iff
both an OTP record exactly matching (email, code) and an account with
that email are stored; on success the account's emailConfirmed flag is
set, the matched record is deleted by its own id (siblings are kept),
and — provided stored OTP ids are pairwise distinct and the matching
record was unique — a second confirmOTP with the same arguments fails
with the 400 invalidOTP error. -/
theorem confirmOTP_consume (tr sign : String → String) (s : Store) (email code : String)
    (he : email ≠ "") (hc : code ≠ "") :
    ((∃ p s2, confirmOTP tr sign s email code = (Except.ok p, s2)) ↔
      (findOtp s email code).isSome ∧ (findUserByEmail s email).isSome)
    ∧ (∀ r u, findOtp s email code = some r → findUserByEmail s email = some u →
        (confirmOTP tr sign s email code).1 =
          Except.ok { token := sign u.id, user := sanitize { u with isEmailConfirmed := true } }
        ∧ findUserByEmail (confirmOTP tr sign s email code).2 email =
            some { u with isEmailConfirmed := true }
        ∧ (confirmOTP tr sign s email code).2.otps =
            s.otps.eraseP (fun x => x.id == r.id)
        ∧ (s.otps.Pairwise (fun a b => a.id ≠ b.id) →
            s.otps.countP (fun x => x.email == email && x.otp == code) = 1 →
            (confirmOTP tr sign (confirmOTP tr sign s email code).2 email code).1 =
              Except.error (appErr tr "auth.invalidOTP" 400))) := by
  constructor
  · constructor
    · rintro ⟨p, s2, hps⟩
      cases ho : findOtp s email code with
      | none => simp [confirmOTP, he, hc, ho] at hps
      | some r =>
          cases hu : findUserByEmail s email with
          | none => simp [confirmOTP, he, hc, ho, hu] at hps
          | some u => simp [ho, hu]
    · rintro ⟨h1, h2⟩
      obtain ⟨r, hr⟩ := Option.isSome_iff_exists.mp h1
      obtain ⟨u, hu⟩ := Option.isSome_iff_exists.mp h2
      refine ⟨{ token := sign u.id, user := sanitize { u with isEmailConfirmed := true } },
        { s with users := setEmailConfirmed email s.users,
                 otps := s.otps.eraseP (fun x => x.id == r.id) }, ?_⟩
      simp [confirmOTP, he, hc, hr, hu]
  · intro r u hr hu
    have hconf : confirmOTP tr sign s email code =
        (Except.ok { token := sign u.id, user := sanitize { u with isEmailConfirmed := true } },
         { s with users := setEmailConfirmed email s.users,
                  otps := s.otps.eraseP (fun x => x.id == r.id) }) := by
      simp [confirmOTP, he, hc, hr, hu]
    refine ⟨by rw [hconf], ?_, by rw [hconf], ?_⟩
    · rw [hconf]
      have hu' : s.users.find? (fun v => v.email == email) = some u := hu
      unfold findUserByEmail
      rw [find_setEmailConfirmed, hu']
      rfl
    · intro hpw hcount
      have hr' : s.otps.find? (fun x => x.email == email && x.otp == code) = some r := hr
      have hnone := eraseP_unique_no_match email code s.otps r hpw hr' hcount
      rw [hconf]
      simp [confirmOTP, he, hc, findOtp, hnone]

/-- Witness for the amended C1: on a concrete store with one matching
record and one account, confirmOTP succeeds and the repeated call fails
with invalidOTP. -/
theorem confirmOTP_consume_instance :
    (confirmOTP trId signDefault ⟨[aliceUser], [⟨"o1", "a@x.com", "1234", 0⟩], 5⟩
        "a@x.com" "1234").1 =
      Except.ok { token := signDefault aliceUser.id,
                  user := sanitize { aliceUser with isEmailConfirmed := true } }
    ∧ (confirmOTP trId signDefault
        (confirmOTP trId signDefault ⟨[aliceUser], [⟨"o1", "a@x.com", "1234", 0⟩], 5⟩
          "a@x.com" "1234").2 "a@x.com" "1234").1 =
      Except.error (appErr trId "auth.invalidOTP" 400) := by
  have h := confirmOTP_consume trId signDefault
    ⟨[aliceUser], [⟨"o1", "a@x.com", "1234", 0⟩], 5⟩ "a@x.com" "1234" (by decide) (by decide)
  have h2 := h.2 ⟨"o1", "a@x.com", "1234", 0⟩ aliceUser (by decide) (by decide)
  exact ⟨h2.1, h2.2.2.2 (by simp) (by decide)⟩

end WedBE
